import Mathlib

/-!
Shallow embedding of node-bsatk (`src/index.cpp`): the error taxonomy
(`convertErrorCode`, `BSAException`), the archive handle operations
(`read`, `write`, `getType`, construction, `createFile`), the background
workers (`ExtractWorker`, `LoadWorker`) and the folder-tree file-count
invariant.  Machine-level inputs the C++ reads from its environment
(the result code of the engine, the current `errno`, whether a V8 isolate is
present) are explicit arguments.
-/

namespace BSA

/-- Engine outcome codes (`BSA::EErrorCode`).  The codes named by
`src/index.cpp` are constructors; `ERROR_OTHER n` stands for any further
code of the engine enumeration that this layer does not name. -/
inductive EErrorCode where
  | ERROR_NONE
  | ERROR_ACCESSFAILED
  | ERROR_CANCELED
  | ERROR_FILENOTFOUND
  | ERROR_INVALIDDATA
  | ERROR_INVALIDHASHES
  | ERROR_SOURCEFILEMISSING
  | ERROR_ZLIBINITFAILED
  | ERROR_OTHER (n : Nat)
  deriving DecidableEq, Repr

/-- Engine archive type codes (`BSA::EType`): the two matched by
`BSArchive::getType` plus `TYPE_OTHER n` for every other engine type. -/
inductive EType where
  | TYPE_OBLIVION
  | TYPE_SKYRIM
  | TYPE_OTHER (n : Nat)
  deriving DecidableEq, Repr

/-- An opaque engine file handle (`BSA::File::Ptr`). -/
structure File where
  id : Nat
  deriving DecidableEq, Repr

end BSA

/-- `convertErrorCode` from `src/index.cpp` lines 7-19; the `nullptr`
C string returned for `ERROR_NONE` is `none`. -/
def convertErrorCode : BSA.EErrorCode → Option String
  | .ERROR_ACCESSFAILED => some "access failed"
  | .ERROR_CANCELED => some "canceled"
  | .ERROR_FILENOTFOUND => some "file not found"
  | .ERROR_INVALIDDATA => some "invalid data"
  | .ERROR_INVALIDHASHES => some "invalid hashes"
  | .ERROR_SOURCEFILEMISSING => some "source file missing"
  | .ERROR_ZLIBINITFAILED => some "zlib init failed"
  | .ERROR_NONE => none
  | .ERROR_OTHER _ => some "unknown"

/-- The data a `BSAException` carries: the engine code, the `errno`
captured at construction time, and the syscall name string. -/
structure BSAExceptionData where
  code : BSA.EErrorCode
  sysError : Int
  sysCall : String
  deriving DecidableEq, Repr

/-- A JavaScript-side error value: `Nan::ErrnoException(errno, syscall)`
or `Nan::Error(msg)` (the message mirrors the possibly-null C string). -/
inductive JsError where
  | errnoException (sysError : Int) (sysCall : String)
  | error (msg : Option String)
  deriving DecidableEq, Repr

/-- How a synchronous archive operation signals failure: no failure, a
thrown C++ `BSAException` (background context), or a V8 exception set on
the isolate (direct call). -/
inductive ErrorSignal where
  | noError
  | thrownCpp (e : BSAExceptionData)
  | thrownJs (e : JsError)
  deriving DecidableEq, Repr

/-- `BSArchive::write` (lines 137-153): `err` is the engine result,
`currentErrno` the value of `errno` at that point, `isolatePresent`
whether `v8::Isolate::GetCurrent()` is non-null. -/
def BSArchive.write (err : BSA.EErrorCode) (currentErrno : Int)
    (isolatePresent : Bool) : ErrorSignal :=
  if err = .ERROR_NONE then .noError
  else if isolatePresent = false then .thrownCpp ⟨err, currentErrno, "write"⟩
  else if err = .ERROR_ACCESSFAILED ∨ err = .ERROR_FILENOTFOUND then
    .thrownJs (.errnoException currentErrno "write")
  else .thrownJs (.error (convertErrorCode err))

/-- `BSArchive::read` (lines 168-184).  Note: the source passes the
literal syscall name `"write"` in both of its error branches, exactly as
written at lines 175 and 180. -/
def BSArchive.read (err : BSA.EErrorCode) (currentErrno : Int)
    (isolatePresent : Bool) : ErrorSignal :=
  if err = .ERROR_NONE then .noError
  else if isolatePresent = false then .thrownCpp ⟨err, currentErrno, "write"⟩
  else if err = .ERROR_ACCESSFAILED ∨ err = .ERROR_FILENOTFOUND then
    .thrownJs (.errnoException currentErrno "write")
  else .thrownJs (.error (convertErrorCode err))

/-- `BSArchive::getType` (lines 159-166): the `default` branch returns
`nullptr` (here `none`); Fallout 3 / NV archives report `TYPE_SKYRIM`
from the engine, per the comment at line 163. -/
def BSArchive.getType : BSA.EType → Option String
  | .TYPE_OBLIVION => some "oblivion"
  | .TYPE_SKYRIM => some "skyrim"
  | .TYPE_OTHER _ => none

/-- `BSArchive::BSArchive(fileName, testHashes, create)` (lines 119-126):
calls `read` iff `create` is false.  The first component records whether
the engine read was invoked at all. -/
def BSArchive.construct (create : Bool) (engineReadResult : BSA.EErrorCode)
    (currentErrno : Int) (isolatePresent : Bool) : Bool × ErrorSignal :=
  if create then (false, .noError)
  else (true, BSArchive.read engineReadResult currentErrno isolatePresent)

/-- Modelled from the spec: `BSA::Archive::createFile` lives in the
bsatk engine, not under src/; per §4.1 it stages the name, the external
source path and the compression flag, with no lookup of the source path
(validation deferred to `write`). -/
structure FileEntry where
  name : String
  sourcePath : String
  compressed : Bool
  deriving DecidableEq, Repr

/-- `BSArchive::createFile` (lines 200-202), staging through the
engine `createFile` as modelled above. -/
def BSArchive.createFile (name sourcePath : String) (compressed : Bool) :
    FileEntry :=
  { name := name, sourcePath := sourcePath, compressed := compressed }

/-- The always-true per-file progress predicate `src/index.cpp` passes to
the engine `extractAll` call (the lambda at line 59). -/
def extractAllProgress : Int → String → Bool := fun _ _ => true

/-- Oracle for the two engine calls `ExtractWorker::Execute` can make:
`Archive::extract(file, outDir)` and
`Archive::extractAll(outDir, progress)`. -/
structure ExtractEngine where
  extract : BSA.File → String → BSA.EErrorCode
  extractAll : String → (Int → String → Bool) → BSA.EErrorCode

namespace ExtractWorker

/-- The engine code `ExtractWorker::Execute` (lines 52-64) computes:
single-file extract when `m_File` is non-null, `extractAll` with the
always-true progress lambda otherwise. -/
def dispatchCode (eng : ExtractEngine) (file : Option BSA.File)
    (outDir : String) : BSA.EErrorCode :=
  match file with
  | some f => eng.extract f outDir
  | none => eng.extractAll outDir extractAllProgress

/-- `ExtractWorker::Execute`: the stored error message of the worker after the
run (`none` when `SetErrorMessage` was not called). -/
def Execute (eng : ExtractEngine) (file : Option BSA.File)
    (outDir : String) : Option String :=
  let code := dispatchCode eng file outDir
  if code = .ERROR_NONE then none else convertErrorCode code

/-- One invocation of an extract completion handler: its sole argument
(`none` is the JS `null` of `HandleOKCallback`). -/
structure ExtractCall where
  errArg : Option String
  deriving DecidableEq, Repr

/-- `ExtractWorker::HandleOKCallback` (lines 66-74): the callback
invocations it performs — exactly one call with a single null argument. -/
def HandleOKCallbackCalls : List ExtractCall := [{ errArg := none }]

/-- Modelled from the spec: `ExtractWorker` does not override
`HandleErrorCallback`, so the default error delivery of the task model (host
runtime callback mechanism, not under src/) makes one call carrying the
stored error message as an error object. -/
def HandleErrorCallbackCalls (msg : String) : List ExtractCall :=
  [{ errArg := some msg }]

/-- Modelled from the spec: the submit-execute-complete dispatch (§4.3):
after `Execute`, the OK handler runs iff no error message was stored,
the error handler otherwise — exactly one of the two, once. -/
def completeCalls (errorMessage : Option String) : List ExtractCall :=
  match errorMessage with
  | none => HandleOKCallbackCalls
  | some msg => HandleErrorCallbackCalls msg

end ExtractWorker

/-- One full run of an extract submission (`extractFile` passes
`some file`, `extractAll` passes `none`, lines 186-198): execute on the
background context, then deliver the completion callback. -/
def runExtract (eng : ExtractEngine) (file : Option BSA.File)
    (outDir : String) : List ExtractWorker.ExtractCall :=
  ExtractWorker.completeCalls (ExtractWorker.Execute eng file outDir)

namespace LoadWorker

/-- The `LoadWorker` fields the error path reads.  `m_ErrorCode`,
`m_Errno` and `m_SysCall` have no initializer in the C++ (lines 259-261),
so the pre-`Execute` state carries arbitrary contents for them. -/
structure State where
  errorCode : BSA.EErrorCode
  sysError : Int
  sysCall : String
  errorMessage : Option String
  deriving DecidableEq, Repr

/-- What the background construction of the `BSArchive` did: succeeded,
threw a `BSAException`, or threw some other `std::exception` (whose
`what()` is `msg`). -/
inductive ConstructOutcome where
  | ok
  | bsaExc (e : BSAExceptionData)
  | otherExc (msg : String)
  deriving DecidableEq, Repr

/-- `LoadWorker::Execute` (lines 218-231): only the `BSAException`
handler assigns `m_ErrorCode`/`m_Errno`/`m_SysCall`; the generic
`std::exception` handler stores just the message, leaving the other
three fields as they were. -/
def Execute (init : State) (outcome : ConstructOutcome) : State :=
  match outcome with
  | .ok => init
  | .bsaExc e =>
      { errorCode := e.code, sysError := e.sysError, sysCall := e.sysCall,
        errorMessage := convertErrorCode e.code }
  | .otherExc msg => { init with errorMessage := some msg }

/-- `LoadWorker::HandleErrorCallback` (lines 245-254): the single error
value passed to the callback, chosen by the stored error code. -/
def HandleErrorCallback (s : State) : JsError :=
  if s.errorCode = .ERROR_ACCESSFAILED ∨ s.errorCode = .ERROR_FILENOTFOUND
  then .errnoException s.sysError s.sysCall
  else .error s.errorMessage

/-- One invocation of a load completion handler: the error argument
(`none` is JS `null`) and whether an archive-handle argument follows. -/
structure LoadCall where
  errArg : Option JsError
  hasHandle : Bool
  deriving DecidableEq, Repr

/-- `LoadWorker::HandleOKCallback` (lines 233-243): exactly one call with
`(null, archiveHandle)`. -/
def HandleOKCallbackCalls : List LoadCall :=
  [{ errArg := none, hasHandle := true }]

/-- The calls `HandleErrorCallback` performs: exactly one, with the
classified error and no handle argument. -/
def HandleErrorCallbackCalls (s : State) : List LoadCall :=
  [{ errArg := some (HandleErrorCallback s), hasHandle := false }]

/-- Modelled from the spec: the submit-execute-complete dispatch (§4.3):
after `Execute`, the OK handler runs iff no error message was stored,
the error handler otherwise — exactly one of the two, once. -/
def completeCalls (s : State) : List LoadCall :=
  match s.errorMessage with
  | none => HandleOKCallbackCalls
  | some _ => HandleErrorCallbackCalls s

end LoadWorker

/-- One full run of a `loadBSA`/`createBSA` submission (lines 266-280):
the worker starts with a null error message (framework-initialized) but
arbitrary contents `init` in the unassigned classification fields, runs
`Execute`, then delivers the completion callback. -/
def runLoad (init : LoadWorker.State) (outcome : LoadWorker.ConstructOutcome) :
    List LoadWorker.LoadCall :=
  LoadWorker.completeCalls
    (LoadWorker.Execute { init with errorMessage := none } outcome)

namespace BSA

/-- Modelled from the spec: `BSA::Folder` of the bsatk engine is not
under src/ (`src/index.cpp` only wraps it); per §3/§4.2 a folder is a
name, its direct files and its ordered subfolders. -/
inductive Folder where
  | node (name : String) (files : List String) (subFolders : List Folder)

mutual

/-- Modelled from the spec: `countFiles` returns the number of files in
the whole subtree of the folder ("all files under this subtree", §4.2); here
as the length of the flattened subtree file list, with the spec
summation form proved below. -/
def Folder.allFiles : Folder → List String
  | .node _ fs subs => fs ++ Folder.allFilesList subs

/-- All files under each folder of a list, concatenated. -/
def Folder.allFilesList : List Folder → List String
  | [] => []
  | f :: rest => Folder.allFiles f ++ Folder.allFilesList rest

end

/-- `BSAFolder::getNumFiles` (line 107): the direct file count. -/
def Folder.getNumFiles : Folder → Nat
  | .node _ fs _ => fs.length

/-- `BSAFolder::getSubFolder`/`getNumSubFolders` (lines 105-106): the
direct subfolder list. -/
def Folder.getSubFolders : Folder → List Folder
  | .node _ _ subs => subs

/-- `BSAFolder::countFiles` (line 108): the recursive file count. -/
def Folder.countFiles (f : Folder) : Nat := (Folder.allFiles f).length

end BSA

/-- Modelled from the spec: the engine archive state this layer sees —
its root folder, always present (§3). -/
structure Archive where
  rootFolder : BSA.Folder

/-- `BSArchive::getRoot` (lines 155-157): hands out the root folder. -/
def BSArchive.getRoot (a : Archive) : BSA.Folder := a.rootFolder

/-! ## Helper lemmas -/

/-- Every non-success engine code has a (non-null) description. -/
theorem convertErrorCode_isSome_of_ne (c : BSA.EErrorCode)
    (h : c ≠ .ERROR_NONE) : (convertErrorCode c).isSome := by
  cases c <;> simp [convertErrorCode] at h ⊢

/-- A load completion dispatch performs exactly one callback invocation. -/
theorem loadCompleteCalls_length (s : LoadWorker.State) :
    (LoadWorker.completeCalls s).length = 1 := by
  obtain ⟨ec, se, sc, em⟩ := s
  cases em <;> rfl

/-- An extract completion dispatch performs exactly one callback
invocation. -/
theorem extractCompleteCalls_length (em : Option String) :
    (ExtractWorker.completeCalls em).length = 1 := by
  cases em <;> rfl

/-- The flattened file list of a folder list has as many entries as the
sum of the recursive counts of its members. -/
theorem allFilesList_length (l : List BSA.Folder) :
    (BSA.Folder.allFilesList l).length
      = (l.map BSA.Folder.countFiles).sum := by
  induction l with
  | nil => rfl
  | cons f rest ih =>
      simp [BSA.Folder.allFilesList, BSA.Folder.countFiles, ih]

/-! ## Claims -/

/-- C2: `convertErrorCode` is a total mapping sending each named engine
code to its fixed description, the success code to the absence of a
message, and every code outside the named set to "unknown". -/
theorem convertErrorCode_total_mapping :
    convertErrorCode .ERROR_ACCESSFAILED = some "access failed" ∧
    convertErrorCode .ERROR_CANCELED = some "canceled" ∧
    convertErrorCode .ERROR_FILENOTFOUND = some "file not found" ∧
    convertErrorCode .ERROR_INVALIDDATA = some "invalid data" ∧
    convertErrorCode .ERROR_INVALIDHASHES = some "invalid hashes" ∧
    convertErrorCode .ERROR_SOURCEFILEMISSING = some "source file missing" ∧
    convertErrorCode .ERROR_ZLIBINITFAILED = some "zlib init failed" ∧
    convertErrorCode .ERROR_NONE = none ∧
    ∀ n : Nat, convertErrorCode (.ERROR_OTHER n) = some "unknown" :=
  ⟨rfl, rfl, rfl, rfl, rfl, rfl, rfl, rfl, fun _ => rfl⟩

/-- C3: `write` signals failure consistently in both contexts: a
non-success engine code on a background context (no isolate) throws a
`BSAException` carrying the code, the current errno and "write"; invoked
directly it raises an errno-based error for access-failed/file-not-found
and a plain descriptive error otherwise; success signals nothing. -/
theorem write_error_signaling (err : BSA.EErrorCode) (errno : Int)
    (iso : Bool) (h : err ≠ .ERROR_NONE) :
    BSArchive.write err errno false = .thrownCpp ⟨err, errno, "write"⟩ ∧
    BSArchive.write err errno true =
      (if err = .ERROR_ACCESSFAILED ∨ err = .ERROR_FILENOTFOUND then
        .thrownJs (.errnoException errno "write")
      else .thrownJs (.error (convertErrorCode err))) ∧
    BSArchive.write .ERROR_NONE errno iso = .noError := by
  refine ⟨?_, ?_, ?_⟩ <;> simp [BSArchive.write, h]

/-- Witness for C3 at a concrete non-success code. -/
theorem write_error_signaling_witness :
    BSArchive.write .ERROR_CANCELED 5 false
      = .thrownCpp ⟨.ERROR_CANCELED, 5, "write"⟩ :=
  (write_error_signaling .ERROR_CANCELED 5 true (by decide)).1

/-- C5: `getType` returns "oblivion" for the Oblivion engine type,
"skyrim" for the Skyrim engine type (the one Fallout 3/NV archives also
report), and null for any other engine type. -/
theorem getType_variant_mapping :
    BSArchive.getType .TYPE_OBLIVION = some "oblivion" ∧
    BSArchive.getType .TYPE_SKYRIM = some "skyrim" ∧
    ∀ n : Nat, BSArchive.getType (.TYPE_OTHER n) = none :=
  ⟨rfl, rfl, fun _ => rfl⟩

/-- C6: `extractAll` submits the engine extract-all with a per-file
progress predicate that returns true for every (index, name) pair, so in
this layer extraction is never aborted through the predicate. -/
theorem extractAll_progress_always_true (eng : ExtractEngine)
    (outDir : String) :
    (∀ (i : Int) (name : String), extractAllProgress i name = true) ∧
    ExtractWorker.dispatchCode eng none outDir
      = eng.extractAll outDir extractAllProgress :=
  ⟨fun _ _ => rfl, rfl⟩

/-- C7: for every folder, the recursive file count equals the direct
file count plus the sum of the recursive file counts of the direct
subfolders. -/
theorem countFiles_recurrence (f : BSA.Folder) :
    f.countFiles
      = f.getNumFiles + (f.getSubFolders.map BSA.Folder.countFiles).sum := by
  cases f with
  | node n fs subs =>
      simp [BSA.Folder.countFiles, BSA.Folder.allFiles,
        BSA.Folder.getNumFiles, BSA.Folder.getSubFolders, allFilesList_length]

/-- C8: construction with create=true performs no engine read and
signals no error, `getRoot` hands out the root folder with no failure
path, and `createFile` stages (name, sourcePath, compressed) exactly as
given with no check of the source path. -/
theorem createEmpty_root_createFile_no_io (err : BSA.EErrorCode)
    (errno : Int) (iso : Bool) (a : Archive)
    (name sourcePath : String) (compressed : Bool) :
    BSArchive.construct true err errno iso = (false, .noError) ∧
    BSArchive.getRoot a = a.rootFolder ∧
    BSArchive.createFile name sourcePath compressed
      = { name := name, sourcePath := sourcePath, compressed := compressed } :=
  ⟨rfl, rfl, rfl⟩

/-- C9: `ExtractWorker` dispatches on the nullity of its file reference
— a non-null file goes to the engine single-file extract on exactly that
file, a null one to extract-all — and an error message is stored iff the
engine code is not success. -/
theorem extractWorker_dispatch (eng : ExtractEngine) (f : BSA.File)
    (file : Option BSA.File) (outDir : String) :
    ExtractWorker.dispatchCode eng (some f) outDir = eng.extract f outDir ∧
    ExtractWorker.dispatchCode eng none outDir
      = eng.extractAll outDir extractAllProgress ∧
    ((ExtractWorker.Execute eng file outDir).isSome ↔
      ExtractWorker.dispatchCode eng file outDir ≠ .ERROR_NONE) := by
  refine ⟨rfl, rfl, ?_⟩
  unfold ExtractWorker.Execute
  by_cases h : ExtractWorker.dispatchCode eng file outDir = .ERROR_NONE
  · simp [h]
  · simp [h, convertErrorCode_isSome_of_ne _ h]

/-- Witness for C9 at a concrete engine and file. -/
theorem extractWorker_dispatch_witness :
    ExtractWorker.dispatchCode
        ⟨fun _ _ => .ERROR_NONE, fun _ _ => .ERROR_NONE⟩ (some ⟨0⟩) "out"
      = .ERROR_NONE :=
  (extractWorker_dispatch ⟨fun _ _ => .ERROR_NONE, fun _ _ => .ERROR_NONE⟩
    ⟨0⟩ (some ⟨0⟩) "out").1

/-- C4: every submission invokes its completion handler exactly once: a
successful load/create delivers (null, handle); a failed one a single
non-null error and no handle; a successful extract a single null
argument; a failed extract a single non-null error. -/
theorem callback_exactly_once (init : LoadWorker.State)
    (outcome : LoadWorker.ConstructOutcome) (e : BSAExceptionData)
    (msg : String) (eng : ExtractEngine) (file : Option BSA.File)
    (outDir : String) (hcode : e.code ≠ .ERROR_NONE) :
    (runLoad init outcome).length = 1 ∧
    runLoad init .ok = [{ errArg := none, hasHandle := true }] ∧
    (∃ je : JsError, runLoad init (.bsaExc e)
      = [{ errArg := some je, hasHandle := false }]) ∧
    (∃ je : JsError, runLoad init (.otherExc msg)
      = [{ errArg := some je, hasHandle := false }]) ∧
    (runExtract eng file outDir).length = 1 ∧
    (ExtractWorker.Execute eng file outDir = none →
      runExtract eng file outDir = [{ errArg := none }]) ∧
    (∀ m : String, ExtractWorker.Execute eng file outDir = some m →
      runExtract eng file outDir = [{ errArg := some m }]) := by
  refine ⟨loadCompleteCalls_length _, rfl, ?_, ?_, extractCompleteCalls_length _, ?_, ?_⟩
  · obtain ⟨m, hm⟩ :=
      Option.isSome_iff_exists.mp (convertErrorCode_isSome_of_ne e.code hcode)
    refine ⟨LoadWorker.HandleErrorCallback
      ⟨e.code, e.sysError, e.sysCall, some m⟩, ?_⟩
    simp [runLoad, LoadWorker.Execute, hm, LoadWorker.completeCalls,
      LoadWorker.HandleErrorCallbackCalls]
  · exact ⟨LoadWorker.HandleErrorCallback
      ⟨init.errorCode, init.sysError, init.sysCall, some msg⟩, rfl⟩
  · intro h
    simp [runExtract, h, ExtractWorker.completeCalls,
      ExtractWorker.HandleOKCallbackCalls]
  · intro m h
    simp [runExtract, h, ExtractWorker.completeCalls,
      ExtractWorker.HandleErrorCallbackCalls]

/-- Witness for C4 at concrete inputs. -/
theorem callback_exactly_once_witness :
    runLoad ⟨.ERROR_NONE, 0, "", none⟩ .ok
      = [{ errArg := none, hasHandle := true }] :=
  (callback_exactly_once ⟨.ERROR_NONE, 0, "", none⟩ .ok
    ⟨.ERROR_CANCELED, 0, "write"⟩ "m"
    ⟨fun _ _ => .ERROR_NONE, fun _ _ => .ERROR_NONE⟩ none ""
    (by decide)).2.1

/-- C1 (code slip): a load that fails with an OS-resource class code
reports the syscall name "write", not "open": `BSArchive::read` throws
`BSAException(err, "write")` (line 175) and the load error path forwards
that stored name to the completion handler unchanged. -/
theorem load_failure_reports_write_not_open :
    BSArchive.read .ERROR_FILENOTFOUND 2 false
      = .thrownCpp ⟨.ERROR_FILENOTFOUND, 2, "write"⟩ ∧
    runLoad ⟨.ERROR_NONE, 0, "x", none⟩
        (.bsaExc ⟨.ERROR_FILENOTFOUND, 2, "write"⟩)
      = [{ errArg := some (.errnoException 2 "write"), hasHandle := false }] ∧
    "write" ≠ "open" :=
  ⟨by decide, by decide, by decide⟩

/-- C10 (code slip): on a failure that is not a `BSAException`, `Execute`
leaves the classification fields at their pre-Execute (uninitialized in
the C++) contents, and the delivered error depends on that garbage: two
runs of the same failing request that differ only in the uninitialized
fields deliver differently classified errors. -/
theorem loadWorker_uninitialized_classification :
    (∀ (init : LoadWorker.State) (msg : String),
      (LoadWorker.Execute init (.otherExc msg)).errorCode = init.errorCode ∧
      (LoadWorker.Execute init (.otherExc msg)).sysError = init.sysError ∧
      (LoadWorker.Execute init (.otherExc msg)).sysCall = init.sysCall) ∧
    runLoad ⟨.ERROR_ACCESSFAILED, 13, "junk", none⟩ (.otherExc "bad alloc")
      = [{ errArg := some (.errnoException 13 "junk"), hasHandle := false }] ∧
    runLoad ⟨.ERROR_CANCELED, 13, "junk", none⟩ (.otherExc "bad alloc")
      = [{ errArg := some (.error (some "bad alloc")), hasHandle := false }] :=
  ⟨fun _ _ => ⟨rfl, rfl, rfl⟩, by decide, by decide⟩
